import Mathlib

/-!
Verification development for the fuchsia-storage VFS rust library
(`src/lib/storage/vfs/rust`).  The definitions below are a shallow
embedding of the library's connection-level logic:

* flag validation and rights inheritance from `directory/common.rs`,
* the dirent encoder from `directory/common.rs`,
* the base directory connection's `handle_open` from
  `directory/connection/io1.rs`,
* the mutable directory connection's `handle_unlink` from
  `directory/mutable/connection/io1.rs`,
* the cross-directory rename dispatch from `filesystem/simple.rs`,
* the file connection's `handle_read_at` / `handle_write` /
  `handle_write_at` / `handle_seek` / `handle_truncate` from
  `file/connection/io1.rs`.

Machine integers (`u32` flags, `u64` offsets) are represented as `Nat`,
with bitwise operations `&&&`, `|||`, `^^^` and an explicit 32-bit
complement `u32not`; `u64` stores that can wrap are reduced modulo
`2 ^ 64`.  Asynchronous calls into the backing entry are represented by
passing the call's result in as an argument and recording the call in an
explicit operation log (mirroring the operation log used by the
library's own `MockFile` tests).
-/

/-- Status codes of `zx::Status` that the embedded code paths use
(`GENERIC` stands for the generic backing-entry failure status). -/
inductive Status where
  | OK
  | NOT_FILE
  | NOT_SUPPORTED
  | INVALID_ARGS
  | ACCESS_DENIED
  | BAD_PATH
  | OUT_OF_RANGE
  | BAD_HANDLE
  | NOT_FOUND
  | GENERIC
  deriving DecidableEq, Repr

deriving instance DecidableEq for Except

/-! Constants of the `fuchsia.io` (io1) FIDL protocol, as imported by the
library from the external `fidl_fuchsia_io` bindings.  The numeric values
are fixed by the protocol definition. -/

def OPEN_RIGHT_READABLE : Nat := 0x00000001
def OPEN_RIGHT_WRITABLE : Nat := 0x00000002
def OPEN_RIGHT_EXECUTABLE : Nat := 0x00000008
def OPEN_FLAG_CREATE : Nat := 0x00010000
def OPEN_FLAG_CREATE_IF_ABSENT : Nat := 0x00020000
def OPEN_FLAG_TRUNCATE : Nat := 0x00040000
def OPEN_FLAG_DIRECTORY : Nat := 0x00080000
def OPEN_FLAG_APPEND : Nat := 0x00100000
def OPEN_FLAG_NODE_REFERENCE : Nat := 0x00400000
def OPEN_FLAG_DESCRIBE : Nat := 0x00800000
def OPEN_FLAG_POSIX_DEPRECATED : Nat := 0x01000000
def OPEN_FLAG_NOT_DIRECTORY : Nat := 0x02000000
def CLONE_FLAG_SAME_RIGHTS : Nat := 0x04000000
def OPEN_FLAG_POSIX_WRITABLE : Nat := 0x08000000
def OPEN_FLAG_POSIX_EXECUTABLE : Nat := 0x10000000

/-- Flags that may accompany `OPEN_FLAG_NODE_REFERENCE`
(`OPEN_FLAG_DIRECTORY`, `OPEN_FLAG_NOT_DIRECTORY`, `OPEN_FLAG_DESCRIBE`
and `OPEN_FLAG_NODE_REFERENCE` itself), as defined by `fuchsia.io`. -/
def OPEN_FLAGS_ALLOWED_WITH_NODE_REFERENCE : Nat := 0x02c80000

def MODE_TYPE_MASK : Nat := 0x000ff000
def MODE_TYPE_DIRECTORY : Nat := 0x00004000
def MAX_FILENAME : Nat := 255
def MAX_BUF : Nat := 8192

/-- Bitwise complement within the 32-bit flag domain: the Rust `!flags`
on a `u32`. -/
def u32not (m : Nat) : Nat := 0xFFFFFFFF ^^^ m

/-! Generic helper lemmas for mask arithmetic on `Nat`. -/

theorem land_mask_first {x m n : Nat} (h : m &&& n = n) :
    (x &&& m) &&& n = x &&& n := by
  rw [Nat.and_assoc, h]

theorem land_pres_of_land {x m : Nat} (n : Nat) (h : x &&& m = x) :
    (x &&& n) &&& m = x &&& n := by
  rw [Nat.and_assoc, Nat.and_comm n m, ← Nat.and_assoc, h]

theorem land_eq_of_land_self {x m : Nat} (n : Nat) (h : x &&& m = x) :
    x &&& n = x &&& (m &&& n) := by
  conv_lhs => rw [← h]
  rw [Nat.and_assoc]

theorem lor_land_disjoint {x : Nat} (m n : Nat) (h : m &&& n = 0) :
    (x ||| m) &&& n = x &&& n := by
  rw [Nat.and_distrib_right, h, Nat.or_zero]

theorem land_zero_of_land_zero {x u n : Nat} (h1 : x &&& u = 0)
    (h2 : u &&& n = n) : x &&& n = 0 := by
  rw [← h2, ← Nat.and_assoc, h1, Nat.zero_and]

/-- A number whose bits avoid the 32-bit complement of a mask is
unchanged by intersection with that mask. -/
theorem land_eq_self_of_land_u32not_zero {x y : Nat} (hx : x < 2 ^ 32)
    (h : x &&& u32not y = 0) : x &&& y = x := by
  apply Nat.eq_of_testBit_eq
  intro i
  rw [Nat.testBit_and]
  cases hxb : x.testBit i with
  | false => simp [hxb]
  | true =>
    have hi : i < 32 := by
      by_contra hge
      have hlt : x < 2 ^ i :=
        lt_of_lt_of_le hx (Nat.pow_le_pow_right (by norm_num) (by omega))
      rw [Nat.testBit_lt_two_pow hlt] at hxb
      exact Bool.noConfusion hxb
    have h0 := congrArg (fun z => z.testBit i) h
    simp only [Nat.testBit_and, Nat.zero_testBit] at h0
    rw [hxb] at h0
    unfold u32not at h0
    rw [Nat.testBit_xor] at h0
    have hK : Nat.testBit 0xFFFFFFFF i = true := by
      have hv : (0xFFFFFFFF : Nat) = 2 ^ 32 - 1 := by norm_num
      rw [hv, Nat.testBit_two_pow_sub_one]
      simp [hi]
    rw [hK] at h0
    simp only [Bool.true_and] at h0
    cases hyb : y.testBit i with
    | false => rw [hyb] at h0; simp at h0
    | true => simp [hyb]

/-! Rights checking.

Modelled from the spec: `crate::common::stricter_or_same_rights` lives in
`src/lib/storage/vfs/rust/src/common.rs`, which is not part of the
provided sources.  Section 4.1 of the spec describes it as the final
check that the child's requested rights (readable / writable /
executable) are a subset of the parent's rights. -/

/-- Rights bits of an open-flags word: readable, writable, executable. -/
def OPEN_RIGHTS : Nat :=
  OPEN_RIGHT_READABLE ||| OPEN_RIGHT_WRITABLE ||| OPEN_RIGHT_EXECUTABLE

/-- Modelled from the spec: true when the rights requested in `flags` are
a subset of the rights present in `parent_flags` ("stricter-or-same"). -/
def stricter_or_same_rights (parent_flags flags : Nat) : Bool :=
  (flags &&& OPEN_RIGHTS) &&& u32not (parent_flags &&& OPEN_RIGHTS) == 0

/-! `new_connection_validate_flags` from `directory/common.rs` lines
31-80, decomposed into its three successive flag rewrites followed by the
two rejection checks.  The composition below follows the source's
statement order exactly. -/

/-- Step of `new_connection_validate_flags` (directory/common.rs:32-34):
keep only the node-reference allow-list when `OPEN_FLAG_NODE_REFERENCE`
is present. -/
def ncvf_mask_node_reference (flags : Nat) : Nat :=
  if flags &&& OPEN_FLAG_NODE_REFERENCE ≠ 0 then
    flags &&& OPEN_FLAGS_ALLOWED_WITH_NODE_REFERENCE
  else flags

/-- Step of `new_connection_validate_flags` (directory/common.rs:36-38):
clear `OPEN_FLAG_DIRECTORY`. -/
def ncvf_clear_directory (flags : Nat) : Nat :=
  if flags &&& OPEN_FLAG_DIRECTORY ≠ 0 then flags &&& u32not OPEN_FLAG_DIRECTORY
  else flags

/-- Step of `new_connection_validate_flags` (directory/common.rs:44-58):
expand the deprecated POSIX flag and the POSIX writable/executable flags
into the corresponding rights, then clear all three POSIX flags. -/
def ncvf_expand_posix (flags : Nat) : Nat :=
  let f1 :=
    if flags &&& OPEN_FLAG_POSIX_DEPRECATED ≠ 0 then
      flags ||| (OPEN_FLAG_POSIX_WRITABLE ||| OPEN_FLAG_POSIX_EXECUTABLE)
    else flags
  let f2 :=
    if f1 &&& (OPEN_FLAG_POSIX_DEPRECATED ||| OPEN_FLAG_POSIX_EXECUTABLE) ≠ 0 then
      f1 ||| OPEN_RIGHT_EXECUTABLE
    else f1
  let f3 :=
    if f2 &&& (OPEN_FLAG_POSIX_DEPRECATED ||| OPEN_FLAG_POSIX_WRITABLE) ≠ 0 then
      f2 ||| OPEN_RIGHT_WRITABLE
    else f2
  f3 &&& u32not (OPEN_FLAG_POSIX_DEPRECATED ||| OPEN_FLAG_POSIX_WRITABLE |||
    OPEN_FLAG_POSIX_EXECUTABLE)

/-- The `allowed_flags` set of `new_connection_validate_flags`
(directory/common.rs:60-67). -/
def ncvf_allowed_flags : Nat :=
  OPEN_FLAG_NODE_REFERENCE ||| OPEN_FLAG_DESCRIBE ||| OPEN_FLAG_CREATE |||
  OPEN_FLAG_CREATE_IF_ABSENT ||| OPEN_FLAG_DIRECTORY ||| OPEN_RIGHT_READABLE |||
  OPEN_RIGHT_WRITABLE ||| OPEN_RIGHT_EXECUTABLE

/-- The `prohibited_flags` set of `new_connection_validate_flags`
(directory/common.rs:69). -/
def ncvf_prohibited_flags : Nat := OPEN_FLAG_APPEND ||| OPEN_FLAG_TRUNCATE

/-- `new_connection_validate_flags` from `directory/common.rs` lines
31-80: validates and normalizes the flags of a new directory
connection. -/
def new_connection_validate_flags (flags : Nat) : Except Status Nat :=
  let f := ncvf_clear_directory (ncvf_mask_node_reference flags)
  if f &&& OPEN_FLAG_NOT_DIRECTORY ≠ 0 then .error .NOT_FILE
  else
    let f := ncvf_expand_posix f
    if f &&& ncvf_prohibited_flags ≠ 0 then .error .INVALID_ARGS
    else if f &&& u32not ncvf_allowed_flags ≠ 0 then .error .NOT_SUPPORTED
    else .ok f

/-! `check_child_connection_flags` from `directory/common.rs` lines
86-147.  The function is split at line 107: the leading block resolves
the mode/flags directory-type consistency, the rest performs the flag
checks and the POSIX soft-fail. -/

/-- Tail of `check_child_connection_flags` (directory/common.rs:107-147):
flag consistency checks, POSIX soft-fail against the parent's rights, the
create-requires-writable check and the final rights-narrowing check. -/
def check_child_connection_flags_rest (parent_flags flags mode : Nat) :
    Except Status (Nat × Nat) :=
  if flags &&& (OPEN_FLAG_NOT_DIRECTORY ||| OPEN_FLAG_DIRECTORY) =
      OPEN_FLAG_NOT_DIRECTORY ||| OPEN_FLAG_DIRECTORY then .error .INVALID_ARGS
  else if flags &&& OPEN_FLAG_CREATE_IF_ABSENT ≠ 0 ∧ flags &&& OPEN_FLAG_CREATE = 0 then
    .error .INVALID_ARGS
  else if flags &&& CLONE_FLAG_SAME_RIGHTS ≠ 0 then .error .INVALID_ARGS
  else
    let f1 :=
      if flags &&& OPEN_FLAG_POSIX_DEPRECATED ≠ 0 then
        (flags ||| (OPEN_FLAG_POSIX_WRITABLE ||| OPEN_FLAG_POSIX_EXECUTABLE)) &&&
          u32not OPEN_FLAG_POSIX_DEPRECATED
      else flags
    let f2 :=
      if parent_flags &&& OPEN_RIGHT_EXECUTABLE = 0 then
        f1 &&& u32not OPEN_FLAG_POSIX_EXECUTABLE
      else f1
    let f3 :=
      if parent_flags &&& OPEN_RIGHT_WRITABLE = 0 then
        f2 &&& u32not OPEN_FLAG_POSIX_WRITABLE
      else f2
    if f3 &&& OPEN_FLAG_CREATE ≠ 0 ∧ parent_flags &&& OPEN_RIGHT_WRITABLE = 0 then
      .error .ACCESS_DENIED
    else if stricter_or_same_rights parent_flags f3 then .ok (f3, mode)
    else .error .ACCESS_DENIED

/-- `check_child_connection_flags` from `directory/common.rs` lines
86-147: ensures a child connection receives no more rights than the
directory connection that opens it, and resolves mode/flag directory-type
consistency. -/
def check_child_connection_flags (parent_flags flags mode : Nat) :
    Except Status (Nat × Nat) :=
  let mode_type := mode &&& MODE_TYPE_MASK
  if mode_type = 0 then
    check_child_connection_flags_rest parent_flags flags
      (if flags &&& OPEN_FLAG_DIRECTORY ≠ 0 then mode ||| MODE_TYPE_DIRECTORY else mode)
  else if flags &&& OPEN_FLAG_DIRECTORY ≠ 0 ∧ mode_type ≠ MODE_TYPE_DIRECTORY then
    .error .INVALID_ARGS
  else if flags &&& OPEN_FLAG_NOT_DIRECTORY ≠ 0 ∧ mode_type = MODE_TYPE_DIRECTORY then
    .error .INVALID_ARGS
  else check_child_connection_flags_rest parent_flags flags mode

/-! Dirent encoding, from `directory/common.rs` lines 154-186.  Buffers
are byte lists; a `u64` is serialized as eight little-endian bytes. -/

/-- Directory entry information, from `directory/entry.rs`: the inode
number (a `u64`) and the dirent type (a `u8`). -/
structure EntryInfo where
  inode : Nat
  type_ : Nat
  deriving DecidableEq, Repr

/-- Little-endian byte serialization of a number into `k` bytes, as
performed by `write_u64::<LittleEndian>`. -/
def le_bytes : Nat → Nat → List Nat
  | 0, _ => []
  | k + 1, n => n % 256 :: le_bytes k (n / 256)

/-- `encode_dirent` from `directory/common.rs` lines 154-186: append one
directory entry (8-byte little-endian inode, 1-byte name length, 1-byte
dirent type, name bytes) to `buf`, but only if the result stays within
`max_bytes`; otherwise return `false` and leave the buffer untouched.
The name is the UTF-8 byte list of the Rust `&str`; the `as u8` cast of
the name length is the reduction modulo 256. -/
def encode_dirent (buf : List Nat) (max_bytes : Nat) (entry : EntryInfo)
    (name : List Nat) : Bool × List Nat :=
  let header_size := 8 + 1 + 1
  if buf.length + header_size + name.length > max_bytes then (false, buf)
  else
    (true,
      buf ++ le_bytes 8 entry.inode ++ [name.length % 256, entry.type_ % 256] ++ name)

/-! Cross-directory rename dispatch, from `filesystem/simple.rs` lines
26-67.  The two directory objects are represented by their lock-ordering
keys (the source uses the directories' memory addresses; any stable total
order works, per the spec).  The three `DirectlyMutable` operations
`rename_from` / `rename_within` / `rename_to` live in
`directory/helper.rs`, which is not part of the provided sources; they
are modelled from the spec (section 4.5) by the lock-acquisition trace
they perform:

* `rename_from` enters the source directory's lock and, while still
  holding it, enters the destination's lock to complete the insert;
* `rename_within` takes the single directory's lock once;
* `rename_to` enters the destination directory's lock and, under it,
  enters the source's lock to remove the entry. -/

inductive RenameCase where
  | fromSrc
  | within
  | toDst
  deriving DecidableEq, Repr

/-- Result of a rename dispatch: which `DirectlyMutable` operation ran,
and the directory locks in acquisition order. -/
structure RenameExec where
  case_ : RenameCase
  lockOrder : List Nat
  deriving DecidableEq, Repr

/-- Modelled from the spec: `DirectlyMutable::rename_from` acquires the
source lock first and completes the insert into the destination while
holding it. -/
def rename_from (src_order dst_order : Nat) : RenameExec :=
  ⟨.fromSrc, [src_order, dst_order]⟩

/-- Modelled from the spec: `DirectlyMutable::rename_within` is a single
critical section under one directory lock. -/
def rename_within (order : Nat) : RenameExec :=
  ⟨.within, [order]⟩

/-- Modelled from the spec: `DirectlyMutable::rename_to` acquires the
destination lock first and removes the source entry under it. -/
def rename_to (dst_order src_order : Nat) : RenameExec :=
  ⟨.toDst, [dst_order, src_order]⟩

/-- `SimpleFilesystem::rename` from `filesystem/simple.rs` lines 26-67:
dispatch on the total order over the two directory identities.
`src_order` and `dst_order` are the ordering keys of the already
downcast source and destination directories. -/
def SimpleFilesystem.rename (src_order dst_order : Nat) : RenameExec :=
  if src_order < dst_order then rename_from src_order dst_order
  else if src_order == dst_order then rename_within src_order
  else rename_to dst_order src_order

/-! Path validation.

Modelled from the spec: `crate::path::Path` lives in `src/lib/storage/
vfs/rust/src/path.rs`, which is not part of the provided sources.  Per
the spec (sections 4.3 and 4.4), `validate_and_split` splits a path into
slash-separated segments, rejects paths containing "." or ".."  segments
(and degenerate empty segments) as bad paths, and records a trailing
slash as marking a directory path. -/

structure ModelPath where
  isDir : Bool
  components : List String
  deriving DecidableEq, Repr

/-- Splitting a character list at every '/' (a structural
reimplementation of splitting a string on "/"). -/
def split_on_slash : List Char → List (List Char)
  | [] => [[]]
  | c :: rest =>
    let r := split_on_slash rest
    if c = '/' then [] :: r
    else
      match r with
      | [] => [[c]]
      | h :: t => (c :: h) :: t

/-- Modelled from the spec: `Path::validate_and_split`.  The path is
split into slash-separated segments; a single trailing empty segment
marks a directory path; any remaining empty, "." or ".." segment is a
bad path. -/
def validate_and_split (path : String) : Except Status ModelPath :=
  let parts := (split_on_slash path.data).map (fun l => String.mk l)
  let isDir := parts.getLast? = some ""
  let comps := if isDir then parts.dropLast else parts
  if comps.isEmpty then .error .BAD_PATH
  else if comps.any (fun c => c = "" || c = "." || c = "..") then .error .BAD_PATH
  else .ok ⟨isDir, comps⟩

/-! Base directory connection: `handle_open` from
`directory/connection/io1.rs` lines 408-448, together with the `Open`
arm of `handle_request` (lines 358-360), which always leaves the
connection `Alive`. -/

/-- Connection lifecycle state, from `directory/connection/io1.rs` lines
39-44. -/
inductive ConnectionState where
  | Alive
  | Closed
  deriving DecidableEq, Repr

/-- Observable effect of `handle_open` on its `server_end`:
either an error is sent over the new connection's server end
(`send_on_open_with_error`), or a sibling connection to the same
directory is created (the Clone path), or the open is delegated to
`directory.open` with the computed flags, mode and path. -/
inductive OpenOutcome where
  | errOnNewConnection (status : Status)
  | cloneSelf (flags : Nat)
  | delegate (flags mode : Nat) (path : ModelPath)
  deriving DecidableEq, Repr

/-- Modelled from the spec: `crate::common::inherit_rights_for_clone`
(in `common.rs`, not part of the provided sources).  Per spec section
4.1, if `CLONE_FLAG_SAME_RIGHTS` is requested the clone ignores any
explicit rights and copies the parent's; explicit rights must otherwise
be a subset of the parent's. -/
def inherit_rights_for_clone (parent_flags flags : Nat) : Except Status Nat :=
  if flags &&& CLONE_FLAG_SAME_RIGHTS ≠ 0 then
    .ok ((flags &&& u32not (CLONE_FLAG_SAME_RIGHTS ||| OPEN_RIGHTS)) |||
      (parent_flags &&& OPEN_RIGHTS))
  else if stricter_or_same_rights parent_flags flags then .ok flags
  else .error .ACCESS_DENIED

/-- `BaseConnection::handle_clone` from `directory/connection/io1.rs`
lines 390-406: inherit rights for the clone, reporting a failure over
the new connection's server end. -/
def handle_clone (conn_flags flags : Nat) : OpenOutcome :=
  match inherit_rights_for_clone conn_flags flags with
  | .error status => .errOnNewConnection status
  | .ok updated => .cloneSelf updated

/-- `BaseConnection::handle_open` from `directory/connection/io1.rs`
lines 408-448.  `conn_flags` is the directory connection's own flag
word.  Every validation failure is delivered over the new connection's
server end. -/
def handle_open (conn_flags flags mode : Nat) (path : String) : OpenOutcome :=
  if path = "/" ∨ path = "" then .errOnNewConnection .BAD_PATH
  else if path = "." ∨ path = "./" then handle_clone conn_flags flags
  else
    match validate_and_split path with
    | .error status => .errOnNewConnection status
    | .ok p =>
      let mode := if p.isDir then mode ||| MODE_TYPE_DIRECTORY else mode
      match check_child_connection_flags conn_flags flags mode with
      | .error status => .errOnNewConnection status
      | .ok (flags, mode) => .delegate flags mode p

/-- The `Open` arm of `BaseConnection::handle_request`
(directory/connection/io1.rs lines 358-360 and 387): `handle_open` is
run for its effect on the new connection's server end and the handler
then returns `Ok(ConnectionState::Alive)` unconditionally. -/
def handle_request_open (conn_flags flags mode : Nat) (path : String) :
    ConnectionState × OpenOutcome :=
  (ConnectionState.Alive, handle_open conn_flags flags mode path)

/-! Mutable directory connection: `handle_unlink` from
`directory/mutable/connection/io1.rs` lines 177-216. -/

/-- Observable outcome of `MutableConnection::handle_unlink`: either a
status was sent without invoking the directory's `unlink`, or
`unlink(name)` was invoked and its status sent. -/
inductive UnlinkOutcome where
  | replied (status : Status)
  | unlinked (name : String) (status : Status)
  deriving DecidableEq, Repr

/-- `MutableConnection::handle_unlink` from
`directory/mutable/connection/io1.rs` lines 177-216.  `unlinkRes` is the
result the directory's `unlink(name)` would produce if invoked. -/
def handle_unlink (conn_flags : Nat) (path : String)
    (unlinkRes : Except Status Unit) : UnlinkOutcome :=
  if conn_flags &&& OPEN_RIGHT_WRITABLE = 0 then .replied .ACCESS_DENIED
  else if path = "/" ∨ path = "" ∨ path = "." ∨ path = "./" then .replied .BAD_PATH
  else
    match validate_and_split path with
    | .error status => .replied status
    | .ok p =>
      match p.components with
      | [] => .replied .BAD_PATH
      | entry_name :: rest =>
        if rest ≠ [] then .replied .BAD_PATH
        else
          match unlinkRes with
          | .ok _ => .unlinked entry_name .OK
          | .error status => .unlinked entry_name status

/-! File connection handlers, from `file/connection/io1.rs`.  Each
handler records the calls it makes on the backing `File` entry in an
operation log, mirroring the `FileOperation` log of the module's own
`MockFile` tests.  The result each backing call would produce is passed
in as an argument. -/

/-- One call on the backing `File` entry (payloads reduced to the data
the handlers consume: offsets and lengths). -/
inductive FileOp where
  | readAt (offset count : Nat)
  | writeAt (offset len : Nat)
  | append (len : Nat)
  | truncate (length : Nat)
  | getSize
  deriving DecidableEq, Repr

/-- `FileConnection::handle_read_at` from `file/connection/io1.rs` lines
472-487: requires `OPEN_RIGHT_READABLE`, bounds `count` by `MAX_BUF`,
then reads from the backing entry.  `readAtRes` is the byte count the
backing `read_at` would return.  The result pairs the reply with the
log of backing calls made. -/
def handle_read_at (conn_flags offset count : Nat)
    (readAtRes : Except Status Nat) : Except Status Nat × List FileOp :=
  if conn_flags &&& OPEN_RIGHT_READABLE = 0 then (.error .BAD_HANDLE, [])
  else if count > MAX_BUF then (.error .OUT_OF_RANGE, [])
  else
    match readAtRes with
    | .ok bytes_read => (.ok bytes_read, [.readAt offset count])
    | .error status => (.error status, [.readAt offset count])

/-- The `Read` arm of `FileConnection::handle_request`
(file/connection/io1.rs lines 275-288): read at the stored seek, then
advance the seek by the bytes actually read (zero on error).  Returns
the reply, the new stored seek, and the backing-call log. -/
def handle_read (conn_flags seek count : Nat)
    (readAtRes : Except Status Nat) : Except Status Nat × Nat × List FileOp :=
  let r := handle_read_at conn_flags seek count readAtRes
  match r.1 with
  | .ok bytes_read => (r.1, (seek + bytes_read) % 2 ^ 64, r.2)
  | .error _ => (r.1, seek, r.2)

/-- `FileConnection::handle_write_at` from `file/connection/io1.rs`
lines 510-519: requires `OPEN_RIGHT_WRITABLE`, then writes through to
the backing entry.  Returns the `(status, actual)` reply and the
backing-call log. -/
def handle_write_at (conn_flags offset content_len : Nat)
    (writeAtRes : Except Status Nat) : (Status × Nat) × List FileOp :=
  if conn_flags &&& OPEN_RIGHT_WRITABLE = 0 then ((.BAD_HANDLE, 0), [])
  else
    match writeAtRes with
    | .ok bytes => ((.OK, bytes), [.writeAt offset content_len])
    | .error e => ((e, 0), [.writeAt offset content_len])

/-- Result of `handle_write`: the `(status, actual)` reply, the stored
seek after the operation, and the backing-call log. -/
structure WriteResult where
  status : Status
  actual : Nat
  seek : Nat
  calls : List FileOp
  deriving DecidableEq, Repr

/-- `FileConnection::handle_write` from `file/connection/io1.rs` lines
489-508: requires `OPEN_RIGHT_WRITABLE`; with `OPEN_FLAG_APPEND` the
backing entry's `append` is used and its reported end-of-file offset
becomes the stored seek; otherwise the write happens at the stored seek
via `handle_write_at` and the seek advances by the bytes written (a
`u64` addition, reduced modulo `2 ^ 64`).  `appendRes` is the
`(bytes, end_offset)` pair the backing `append` would return;
`writeAtRes` is the byte count the backing `write_at` would return. -/
def handle_write (conn_flags seek content_len : Nat)
    (appendRes : Except Status (Nat × Nat))
    (writeAtRes : Except Status Nat) : WriteResult :=
  if conn_flags &&& OPEN_RIGHT_WRITABLE = 0 then ⟨.BAD_HANDLE, 0, seek, []⟩
  else if conn_flags &&& OPEN_FLAG_APPEND ≠ 0 then
    match appendRes with
    | .ok (bytes, offset) => ⟨.OK, bytes, offset, [.append content_len]⟩
    | .error e => ⟨e, 0, seek, [.append content_len]⟩
  else
    let r := handle_write_at conn_flags seek content_len writeAtRes
    ⟨r.1.1, r.1.2, (seek + r.1.2) % 2 ^ 64, r.2⟩

/-- `FileConnection::handle_truncate` from `file/connection/io1.rs`
lines 565-574: requires `OPEN_RIGHT_WRITABLE`, then truncates the
backing entry.  Returns the status reply and the backing-call log. -/
def handle_truncate (conn_flags length : Nat)
    (truncateRes : Except Status Unit) : Status × List FileOp :=
  if conn_flags &&& OPEN_RIGHT_WRITABLE = 0 then (.BAD_HANDLE, [])
  else
    match truncateRes with
    | .ok _ => (.OK, [.truncate length])
    | .error status => (status, [.truncate length])

/-- Seek origins of the `fuchsia.io` `Seek` request. -/
inductive ModelSeekOrigin where
  | start
  | current
  | fromEnd
  deriving DecidableEq, Repr

/-- Result of `handle_seek`: the `(status, offset)` reply, the stored
seek after the operation, and the backing-call log. -/
structure SeekResult where
  status : Status
  returned : Nat
  seek : Nat
  calls : List FileOp
  deriving DecidableEq, Repr

/-- `FileConnection::handle_seek` from `file/connection/io1.rs` lines
522-552: node-reference connections are rejected with `BAD_HANDLE`; the
target is computed in a signed `i128` intermediate as the origin base
plus the offset, where the base is 0 for Start, the stored seek for
Current, and the entry-reported size for End (a backing `get_size`
call); a negative target replies `OUT_OF_RANGE` leaving the seek
unchanged, otherwise the target is stored via the `as u64` cast
(reduction modulo `2 ^ 64`) and returned.  `getSizeRes` is the size the
backing `get_size` would report. -/
def handle_seek (conn_flags seek : Nat) (offset : Int)
    (origin : ModelSeekOrigin) (getSizeRes : Except Status Nat) : SeekResult :=
  if conn_flags &&& OPEN_FLAG_NODE_REFERENCE ≠ 0 then ⟨.BAD_HANDLE, 0, seek, []⟩
  else
    let step : Status × Int × List FileOp :=
      match origin with
      | .start => (.OK, offset, [])
      | .current => (.OK, (seek : Int) + offset, [])
      | .fromEnd =>
        match getSizeRes with
        | .ok size => (.OK, (size : Int) + offset, [.getSize])
        | .error e => (e, (seek : Int), [.getSize])
    if step.2.1 < 0 then ⟨.OUT_OF_RANGE, seek, seek, step.2.2⟩
    else ⟨step.1, step.2.1.toNat % 2 ^ 64, step.2.1.toNat % 2 ^ 64, step.2.2⟩

/-- Status sent back for the `unlink(name)` call: OK on success, the
backing error otherwise (mutable/connection/io1.rs lines 212-215). -/
def unlink_status (unlinkRes : Except Status Unit) : Status :=
  match unlinkRes with
  | .ok _ => .OK
  | .error s => s

/-- Target position of a Seek request as described by the claim: the
origin base (0 for Start, the stored seek for Current, the
entry-reported size for End) plus the offset, in exact integer
arithmetic. -/
def seek_target (seek : Nat) (offset : Int) (origin : ModelSeekOrigin)
    (size : Nat) : Int :=
  match origin with
  | .start => offset
  | .current => (seek : Int) + offset
  | .fromEnd => (size : Int) + offset

/-! Theorems.  Each claim of the specification is settled by one theorem
below (with a witness instantiation when the theorem has hypotheses, and
a counterexample when the claim required amending). -/

/-- C5: if `buf.len() + 10 + name.len()` exceeds `max_bytes`,
`encode_dirent` returns `false` and leaves the buffer byte-for-byte
unchanged; otherwise it returns `true` and appends exactly the 8-byte
little-endian inode, the 1-byte name length, the 1-byte dirent type and
the name bytes; consequently, starting from a buffer within the budget,
the buffer never grows past `max_bytes`. -/
theorem encode_dirent_budget (buf : List Nat) (max_bytes : Nat)
    (entry : EntryInfo) (name : List Nat) (hname : name.length ≤ MAX_FILENAME) :
    (buf.length + 10 + name.length > max_bytes →
      encode_dirent buf max_bytes entry name = (false, buf)) ∧
    (buf.length + 10 + name.length ≤ max_bytes →
      encode_dirent buf max_bytes entry name =
        (true, buf ++ le_bytes 8 entry.inode ++
          [name.length, entry.type_ % 256] ++ name) ∧
      (le_bytes 8 entry.inode).length = 8) ∧
    (buf.length ≤ max_bytes →
      (encode_dirent buf max_bytes entry name).2.length ≤ max_bytes) := by
  have hml : name.length % 256 = name.length := by
    apply Nat.mod_eq_of_lt
    have h255 := hname
    unfold MAX_FILENAME at h255
    omega
  refine ⟨?_, ?_, ?_⟩
  · intro h
    simp only [encode_dirent]
    split
    · rfl
    · next hc => omega
  · intro h
    simp only [encode_dirent]
    split
    · next hc => omega
    · rw [hml]
      exact ⟨rfl, rfl⟩
  · intro h
    simp only [encode_dirent]
    split
    · exact h
    · next hc =>
      simp only [List.length_append, List.length_cons, List.length_nil]
      have hlen : (le_bytes 8 entry.inode).length = 8 := rfl
      rw [hlen]
      omega

/-- C5 witness: a concrete entry that exactly fills the budget is
appended, and a buffer one byte short of the budget is left untouched. -/
theorem encode_dirent_budget_witness :
    encode_dirent [1, 2] 14 ⟨5, 4⟩ [97, 98] =
      (true, [1, 2] ++ le_bytes 8 (5 : Nat) ++ [2, 4] ++ [97, 98]) :=
  (((encode_dirent_budget [1, 2] 14 ⟨5, 4⟩ [97, 98] (by decide)).2.1) (by decide)).1

/-- C2: `SimpleFilesystem::rename` dispatches deterministically on the
total order over the two directory identities: equal identities take the
single-lock `rename_within` path; if the source orders strictly first it
enters the source's lock first via `rename_from`, completing the insert
into the destination while holding it; if the destination orders
strictly first it enters the destination's lock first via `rename_to`;
in every cross-directory case the lower-ordered identity's lock is
acquired first. -/
theorem simple_filesystem_rename_lock_order (src_order dst_order : Nat) :
    (src_order = dst_order →
      SimpleFilesystem.rename src_order dst_order = rename_within src_order) ∧
    (src_order < dst_order →
      SimpleFilesystem.rename src_order dst_order = rename_from src_order dst_order ∧
      (SimpleFilesystem.rename src_order dst_order).lockOrder =
        [src_order, dst_order]) ∧
    (dst_order < src_order →
      SimpleFilesystem.rename src_order dst_order = rename_to dst_order src_order ∧
      (SimpleFilesystem.rename src_order dst_order).lockOrder =
        [dst_order, src_order]) ∧
    (src_order ≠ dst_order →
      (SimpleFilesystem.rename src_order dst_order).lockOrder.head? =
        some (min src_order dst_order)) := by
  refine ⟨?_, ?_, ?_, ?_⟩
  · intro h
    subst h
    simp [SimpleFilesystem.rename]
  · intro h
    have he : SimpleFilesystem.rename src_order dst_order =
        rename_from src_order dst_order := by
      simp [SimpleFilesystem.rename, h]
    exact ⟨he, by rw [he]; rfl⟩
  · intro h
    have he : SimpleFilesystem.rename src_order dst_order =
        rename_to dst_order src_order := by
      have h1 : ¬ src_order < dst_order := by omega
      have h2 : (src_order == dst_order) = false := by
        simp only [beq_eq_false_iff_ne, ne_eq]
        omega
      simp [SimpleFilesystem.rename, h1, h2]
    exact ⟨he, by rw [he]; rfl⟩
  · intro h
    rcases Nat.lt_or_ge src_order dst_order with hlt | hge
    · have he : SimpleFilesystem.rename src_order dst_order =
          rename_from src_order dst_order := by
        simp [SimpleFilesystem.rename, hlt]
      rw [he]
      simp [rename_from, Nat.min_def, Nat.le_of_lt hlt]
    · have hgt : dst_order < src_order := by omega
      have h1 : ¬ src_order < dst_order := by omega
      have h2 : (src_order == dst_order) = false := by
        simp only [beq_eq_false_iff_ne, ne_eq]
        omega
      have he : SimpleFilesystem.rename src_order dst_order =
          rename_to dst_order src_order := by
        simp [SimpleFilesystem.rename, h1, h2]
      rw [he]
      have hmin : min src_order dst_order = dst_order := by omega
      simp [rename_to, hmin]

/-- C2 witness: concrete dispatches in the three identity orders. -/
theorem simple_filesystem_rename_lock_order_witness :
    (SimpleFilesystem.rename 5 9).lockOrder = [5, 9] ∧
    SimpleFilesystem.rename 9 9 = rename_within 9 :=
  ⟨((simple_filesystem_rename_lock_order 5 9).2.1 (by decide)).2,
    (simple_filesystem_rename_lock_order 9 9).1 rfl⟩

/-- C10: a file operation on a connection lacking the right it requires
is rejected with `BAD_HANDLE` (not `ACCESS_DENIED`): Read/ReadAt without
`OPEN_RIGHT_READABLE`, Write/WriteAt and Truncate without
`OPEN_RIGHT_WRITABLE`, and Seek on a node-reference connection; the
backing entry is never invoked (empty call log) and the stored seek is
unchanged. -/
theorem missing_rights_reject_bad_handle (conn_flags seek offset count
    content_len length : Nat) (ioff : Int) (origin : ModelSeekOrigin)
    (readAtRes writeAtRes : Except Status Nat)
    (appendRes : Except Status (Nat × Nat)) (truncateRes : Except Status Unit)
    (getSizeRes : Except Status Nat) :
    (conn_flags &&& OPEN_RIGHT_READABLE = 0 →
      handle_read_at conn_flags offset count readAtRes = (.error .BAD_HANDLE, []) ∧
      handle_read conn_flags seek count readAtRes =
        (.error .BAD_HANDLE, seek, [])) ∧
    (conn_flags &&& OPEN_RIGHT_WRITABLE = 0 →
      handle_write conn_flags seek content_len appendRes writeAtRes =
        ⟨.BAD_HANDLE, 0, seek, []⟩ ∧
      handle_write_at conn_flags offset content_len writeAtRes =
        ((.BAD_HANDLE, 0), []) ∧
      handle_truncate conn_flags length truncateRes = (.BAD_HANDLE, [])) ∧
    (conn_flags &&& OPEN_FLAG_NODE_REFERENCE ≠ 0 →
      handle_seek conn_flags seek ioff origin getSizeRes =
        ⟨.BAD_HANDLE, 0, seek, []⟩) := by
  refine ⟨?_, ?_, ?_⟩
  · intro h
    have hra : handle_read_at conn_flags offset count readAtRes =
        (.error .BAD_HANDLE, []) := by
      simp [handle_read_at, h]
    refine ⟨hra, ?_⟩
    have hra2 : handle_read_at conn_flags seek count readAtRes =
        (.error .BAD_HANDLE, []) := by
      simp [handle_read_at, h]
    simp [handle_read, hra2]
  · intro h
    exact ⟨by simp [handle_write, h], by simp [handle_write_at, h],
      by simp [handle_truncate, h]⟩
  · intro h
    simp [handle_seek, h]

/-- C10 witness: a node-reference connection (flags with only
`OPEN_FLAG_NODE_REFERENCE`, hence neither readable nor writable) is
rejected with `BAD_HANDLE` on Seek without touching the entry. -/
theorem missing_rights_reject_bad_handle_witness :
    handle_seek 0x400000 3 5 .start (.ok 0) = ⟨.BAD_HANDLE, 0, 3, []⟩ :=
  (missing_rights_reject_bad_handle 0x400000 3 0 5 6 7 5 .start (.ok 1) (.ok 1)
    (.ok (1, 1)) (.ok ()) (.ok 0)).2.2 (by decide)

/-- C7 counterexample: seeking to `End + 1` on a file whose reported
size is `2 ^ 64 - 1` stores and returns `0`, not the target
`(2 ^ 64 - 1) + 1`: the `as u64` store wraps, so the stored seek is not
always "the result". -/
theorem handle_seek_wrap_counterexample :
    handle_seek 0 0 1 .fromEnd (.ok (2 ^ 64 - 1)) =
      ⟨.OK, 0, 0, [.getSize]⟩ ∧
    (0 : Int) ≠ seek_target 0 1 .fromEnd (2 ^ 64 - 1) := by
  constructor
  · rfl
  · decide

/-- C7 (amended): for a connection not opened as a node reference, the
Seek target is computed exactly as the origin base plus the offset in a
signed intermediate wide enough that no overflow occurs; a negative
target replies `OUT_OF_RANGE` leaving the stored seek unchanged;
otherwise the stored seek becomes the target reduced modulo `2 ^ 64`
(the target itself whenever it is below `2 ^ 64`) and is returned.
`Seek(End, -4)` on a file of size 256 yields 252, and `Seek(Current,
-4)` at seek 0 fails out-of-range leaving seek 0. -/
theorem handle_seek_spec (conn_flags seek : Nat) (offset : Int)
    (origin : ModelSeekOrigin) (size : Nat)
    (hnr : conn_flags &&& OPEN_FLAG_NODE_REFERENCE = 0) :
    (seek_target seek offset origin size < 0 →
      handle_seek conn_flags seek offset origin (.ok size) =
        ⟨.OUT_OF_RANGE, seek, seek,
          if origin = .fromEnd then [.getSize] else []⟩) ∧
    (0 ≤ seek_target seek offset origin size →
      handle_seek conn_flags seek offset origin (.ok size) =
        ⟨.OK, (seek_target seek offset origin size).toNat % 2 ^ 64,
          (seek_target seek offset origin size).toNat % 2 ^ 64,
          if origin = .fromEnd then [.getSize] else []⟩ ∧
      (seek_target seek offset origin size < 2 ^ 64 →
        ((seek_target seek offset origin size).toNat % 2 ^ 64 : Int) =
          seek_target seek offset origin size)) ∧
    handle_seek 0 0 (-4) .fromEnd (.ok 256) = ⟨.OK, 252, 252, [.getSize]⟩ ∧
    handle_seek 0 0 (-4) .current (.ok size) = ⟨.OUT_OF_RANGE, 0, 0, []⟩ := by
  refine ⟨?_, ?_, by rfl, by rfl⟩
  · intro h
    cases origin <;>
      simp_all [handle_seek, seek_target, hnr]
  · intro h
    constructor
    · cases origin <;>
        simp_all [handle_seek, seek_target, hnr, Int.not_lt.mpr h]
    · intro hlt
      omega

/-- C7 witness: a Current-origin seek of -2 from position 5 lands on 3,
 and a concrete negative target leaves the seek unchanged. -/
theorem handle_seek_spec_witness :
    handle_seek 0 5 (-2) .current (.ok 0) = ⟨.OK, 3, 3, []⟩ :=
  (by decide : ((3 : Int).toNat % 2 ^ 64 = 3) ∧ ((0 : Int) ≤ 3)) |>.1 ▸
    ((handle_seek_spec 0 5 (-2) .current 0 (by decide)).2.1
      (by decide)).1

/-- C8 counterexample: a non-append write of one byte at stored seek
`2 ^ 64 - 1` succeeds with a new stored seek of 0, not
`(2 ^ 64 - 1) + 1`: the `u64` seek advance wraps, so the seek does not
always advance by exactly the bytes written. -/
theorem handle_write_advance_counterexample :
    handle_write OPEN_RIGHT_WRITABLE (2 ^ 64 - 1) 1 (.error .GENERIC) (.ok 1) =
      ⟨.OK, 1, 0, [.writeAt (2 ^ 64 - 1) 1]⟩ ∧
    (0 : Nat) ≠ (2 ^ 64 - 1) + 1 := by
  constructor
  · rfl
  · decide

/-- C8 (amended): on a writable connection with `OPEN_FLAG_APPEND`,
Write ignores the stored seek, invokes the backing entry's `append`,
and on success stores the end-of-file offset the entry reports as the
new seek (so a file reporting size 256 with a 13-byte payload yields
seek exactly 269, irrespective of the pre-write seek); on a writable
connection without `OPEN_FLAG_APPEND`, Write writes at the stored seek
and advances the seek by the bytes written reduced modulo `2 ^ 64`
(exactly the bytes written whenever no `u64` overflow occurs). -/
theorem handle_write_spec (conn_flags seek content_len bytes eof : Nat)
    (appendRes : Except Status (Nat × Nat))
    (hw : conn_flags &&& OPEN_RIGHT_WRITABLE ≠ 0) :
    (conn_flags &&& OPEN_FLAG_APPEND ≠ 0 → ∀ writeAtRes,
      handle_write conn_flags seek content_len (.ok (bytes, eof)) writeAtRes =
        ⟨.OK, bytes, eof, [.append content_len]⟩) ∧
    (∀ writeAtRes, (handle_write (OPEN_RIGHT_WRITABLE ||| OPEN_FLAG_APPEND)
        seek 13 (.ok (13, 256 + 13)) writeAtRes).seek = 269) ∧
    (conn_flags &&& OPEN_FLAG_APPEND = 0 →
      handle_write conn_flags seek content_len appendRes (.ok bytes) =
        ⟨.OK, bytes, (seek + bytes) % 2 ^ 64, [.writeAt seek content_len]⟩ ∧
      (seek + bytes < 2 ^ 64 →
        (handle_write conn_flags seek content_len appendRes (.ok bytes)).seek =
          seek + bytes)) := by
  refine ⟨?_, ?_, ?_⟩
  · intro ha writeAtRes
    simp [handle_write, hw, ha]
  · intro writeAtRes
    rfl
  · intro ha
    have he : handle_write conn_flags seek content_len appendRes (.ok bytes) =
        ⟨.OK, bytes, (seek + bytes) % 2 ^ 64, [.writeAt seek content_len]⟩ := by
      simp [handle_write, handle_write_at, hw, ha]
    refine ⟨he, ?_⟩
    intro hlt
    rw [he]
    exact Nat.mod_eq_of_lt hlt

/-- C8 witness: the append-mode scenario at a concrete pre-write seek of
77 yields the entry-reported end offset 269. -/
theorem handle_write_spec_witness :
    handle_write (OPEN_RIGHT_WRITABLE ||| OPEN_FLAG_APPEND) 77 13
      (.ok (13, 269)) (.error .GENERIC) = ⟨.OK, 13, 269, [.append 13]⟩ :=
  (handle_write_spec (OPEN_RIGHT_WRITABLE ||| OPEN_FLAG_APPEND) 77 13 13 269
    (.ok (13, 269)) (by decide)).1 (by decide) (.error .GENERIC)

/-- C9: on a mutable directory connection with `OPEN_RIGHT_WRITABLE`,
Unlink answers the paths "/", "", "." and "./" with `BAD_PATH` without
invoking the directory's `unlink`; a path with components remaining
after its first (leaf) component is also answered `BAD_PATH` without
invoking `unlink`; and only a valid single-component path leads to a
call of `unlink(name)` on the directory. -/
theorem handle_unlink_spec (conn_flags : Nat) (path : String)
    (unlinkRes : Except Status Unit)
    (hw : ¬ conn_flags &&& OPEN_RIGHT_WRITABLE = 0) :
    ((path = "/" ∨ path = "" ∨ path = "." ∨ path = "./") →
      handle_unlink conn_flags path unlinkRes = .replied .BAD_PATH) ∧
    (∀ p, validate_and_split path = .ok p → 2 ≤ p.components.length →
      handle_unlink conn_flags path unlinkRes = .replied .BAD_PATH) ∧
    (∀ p name, ¬ (path = "/" ∨ path = "" ∨ path = "." ∨ path = "./") →
      validate_and_split path = .ok p → p.components = [name] →
      handle_unlink conn_flags path unlinkRes =
        .unlinked name (unlink_status unlinkRes)) ∧
    (∀ name s, handle_unlink conn_flags path unlinkRes = .unlinked name s →
      ∃ p, validate_and_split path = .ok p ∧ p.components = [name]) := by
  refine ⟨?_, ?_, ?_, ?_⟩
  · intro hsp
    unfold handle_unlink
    rw [if_neg hw, if_pos hsp]
  · intro p hp hlen
    by_cases hsp : path = "/" ∨ path = "" ∨ path = "." ∨ path = "./"
    · unfold handle_unlink
      rw [if_neg hw, if_pos hsp]
    · unfold handle_unlink
      rw [if_neg hw, if_neg hsp, hp]
      obtain ⟨d, comps⟩ := p
      match comps, hlen with
      | a :: b :: t, _ => simp
  · intro p name hsp hp hc
    unfold handle_unlink
    rw [if_neg hw, if_neg hsp, hp]
    obtain ⟨d, comps⟩ := p
    simp only at hc
    subst hc
    cases unlinkRes <;> simp [unlink_status]
  · intro name s h
    by_cases hsp : path = "/" ∨ path = "" ∨ path = "." ∨ path = "./"
    · rw [show handle_unlink conn_flags path unlinkRes = .replied .BAD_PATH by
        unfold handle_unlink; rw [if_neg hw, if_pos hsp]] at h
      exact UnlinkOutcome.noConfusion h
    · cases hval : validate_and_split path with
      | error s2 =>
        rw [show handle_unlink conn_flags path unlinkRes = .replied s2 by
          unfold handle_unlink; rw [if_neg hw, if_neg hsp, hval]] at h
        exact UnlinkOutcome.noConfusion h
      | ok p =>
        obtain ⟨d, comps⟩ := p
        cases comps with
        | nil =>
          rw [show handle_unlink conn_flags path unlinkRes = .replied .BAD_PATH by
            unfold handle_unlink; rw [if_neg hw, if_neg hsp, hval]] at h
          exact UnlinkOutcome.noConfusion h
        | cons a t =>
          cases t with
          | nil =>
            rw [show handle_unlink conn_flags path unlinkRes =
                .unlinked a (unlink_status unlinkRes) by
              unfold handle_unlink
              rw [if_neg hw, if_neg hsp, hval]
              cases unlinkRes <;> simp [unlink_status]] at h
            injection h with h1 h2
            exact ⟨⟨d, [a]⟩, rfl, by rw [h1]⟩
          | cons b t2 =>
            rw [show handle_unlink conn_flags path unlinkRes = .replied .BAD_PATH by
              unfold handle_unlink
              rw [if_neg hw, if_neg hsp, hval]
              simp] at h
            exact UnlinkOutcome.noConfusion h

/-- C9 witness: with a writable connection, unlinking the
single-component path "a" invokes `unlink("a")`, which replies OK. -/
theorem handle_unlink_spec_witness :
    handle_unlink 2 "a" (.ok ()) = .unlinked "a" .OK :=
  (handle_unlink_spec 2 "a" (.ok ()) (by decide)).2.2.1 ⟨false, ["a"]⟩ "a"
    (by simp) (by decide) rfl

/-- C3: processing an Open request leaves the directory connection
`Alive` in every case; an empty path or "/" is answered with `BAD_PATH`
on the new connection's server end; "." and "./" are handled as a Clone
of the same directory instead of traversal; a path failing segment
validation, or a child-flags check failure, is likewise reported over
the new connection's server end — never by failing the directory
connection itself. -/
theorem handle_open_spec (conn_flags flags mode : Nat) (path : String) :
    (handle_request_open conn_flags flags mode path).1 = ConnectionState.Alive ∧
    ((path = "/" ∨ path = "") →
      (handle_request_open conn_flags flags mode path).2 =
        .errOnNewConnection .BAD_PATH) ∧
    ((path = "." ∨ path = "./") →
      (handle_request_open conn_flags flags mode path).2 =
        handle_clone conn_flags flags) ∧
    (∀ s, ¬ (path = "/" ∨ path = "") → ¬ (path = "." ∨ path = "./") →
      validate_and_split path = .error s →
      (handle_request_open conn_flags flags mode path).2 =
        .errOnNewConnection s) ∧
    (∀ p s, ¬ (path = "/" ∨ path = "") → ¬ (path = "." ∨ path = "./") →
      validate_and_split path = .ok p →
      check_child_connection_flags conn_flags flags
        (if p.isDir then mode ||| MODE_TYPE_DIRECTORY else mode) = .error s →
      (handle_request_open conn_flags flags mode path).2 =
        .errOnNewConnection s) := by
  refine ⟨rfl, ?_, ?_, ?_, ?_⟩
  · intro h
    simp only [handle_request_open, handle_open]
    rw [if_pos h]
  · intro h
    simp only [handle_request_open, handle_open]
    rcases h with h | h <;> subst h
    · rw [if_neg (by simp), if_pos (Or.inl rfl)]
    · rw [if_neg (by simp), if_pos (Or.inr rfl)]
  · intro s h1 h2 hv
    simp only [handle_request_open, handle_open]
    rw [if_neg h1, if_neg h2, hv]
  · intro p s h1 h2 hv hc
    simp only [handle_request_open, handle_open]
    rw [if_neg h1, if_neg h2, hv]
    simp [hc]

/-- C3 witness: opening path "x" with `CLONE_FLAG_SAME_RIGHTS` (illegal
outside Clone) reports `INVALID_ARGS` on the new connection's server
end. -/
theorem handle_open_spec_witness :
    (handle_request_open 0 CLONE_FLAG_SAME_RIGHTS 0 "x").2 =
      .errOnNewConnection .INVALID_ARGS :=
  (handle_open_spec 0 CLONE_FLAG_SAME_RIGHTS 0 "x").2.2.2.2 ⟨false, ["x"]⟩
    .INVALID_ARGS (by simp) (by simp) (by decide) (by decide)

/-- Every successful result of `check_child_connection_flags_rest`
passed the final `stricter_or_same_rights` guard on the very flag word
it returns. -/
theorem check_child_rest_ok_guard {parent_flags flags mode new_flags new_mode : Nat}
    (h : check_child_connection_flags_rest parent_flags flags mode =
      .ok (new_flags, new_mode)) :
    stricter_or_same_rights parent_flags new_flags = true := by
  simp only [check_child_connection_flags_rest] at h
  repeat' split at h
  all_goals
    first
    | exact Except.noConfusion h
    | (simp only [Except.ok.injEq, Prod.mk.injEq] at h
       rw [← h.1]
       assumption)

/-- A passed `stricter_or_same_rights` check means the rights bits of
the flags are a subset of the parent's rights bits. -/
theorem rights_subset_of_stricter_or_same {parent_flags flags : Nat}
    (h : stricter_or_same_rights parent_flags flags = true) :
    (flags &&& OPEN_RIGHTS) &&& (parent_flags &&& OPEN_RIGHTS) =
      flags &&& OPEN_RIGHTS := by
  unfold stricter_or_same_rights at h
  rw [beq_iff_eq] at h
  have hx : flags &&& OPEN_RIGHTS < 2 ^ 32 :=
    Nat.and_lt_two_pow flags (by decide)
  exact land_eq_self_of_land_u32not_zero hx h

/-- C1: whenever `check_child_connection_flags` succeeds, the rights
bits (READABLE, WRITABLE, EXECUTABLE) of the returned flags are a subset
of the rights bits of `parent_flags`: the function never returns a flag
set whose rights exceed the parent's. -/
theorem check_child_connection_flags_rights_narrowing
    (parent_flags flags mode new_flags new_mode : Nat)
    (h : check_child_connection_flags parent_flags flags mode =
      .ok (new_flags, new_mode)) :
    (new_flags &&& OPEN_RIGHTS) &&& (parent_flags &&& OPEN_RIGHTS) =
      new_flags &&& OPEN_RIGHTS := by
  simp only [check_child_connection_flags] at h
  split at h
  · exact rights_subset_of_stricter_or_same (check_child_rest_ok_guard h)
  split at h
  · exact Except.noConfusion h
  split at h
  · exact Except.noConfusion h
  · exact rights_subset_of_stricter_or_same (check_child_rest_ok_guard h)

/-- C1 witness: a parent with READABLE and WRITABLE grants a child
asking READABLE exactly the readable right, a subset of the parent's
rights. -/
theorem check_child_connection_flags_rights_narrowing_witness :
    (1 &&& OPEN_RIGHTS) &&& (3 &&& OPEN_RIGHTS) = 1 &&& OPEN_RIGHTS :=
  check_child_connection_flags_rights_narrowing 3 1 0 1 0 (by decide)

/-- A flag word confined to NODE_REFERENCE and DESCRIBE is a fixed point
of the POSIX-expansion step. -/
theorem ncvf_expand_posix_fixed_of_nr_describe {x : Nat}
    (h : x &&& (OPEN_FLAG_NODE_REFERENCE ||| OPEN_FLAG_DESCRIBE) = x) :
    ncvf_expand_posix x = x := by
  have c1 : x &&& OPEN_FLAG_POSIX_DEPRECATED = 0 := by
    rw [land_eq_of_land_self _ h,
      (show (OPEN_FLAG_NODE_REFERENCE ||| OPEN_FLAG_DESCRIBE) &&&
        OPEN_FLAG_POSIX_DEPRECATED = 0 by decide), Nat.and_zero]
  have c2 : x &&& (OPEN_FLAG_POSIX_DEPRECATED ||| OPEN_FLAG_POSIX_EXECUTABLE) = 0 := by
    rw [land_eq_of_land_self _ h,
      (show (OPEN_FLAG_NODE_REFERENCE ||| OPEN_FLAG_DESCRIBE) &&&
        (OPEN_FLAG_POSIX_DEPRECATED ||| OPEN_FLAG_POSIX_EXECUTABLE) = 0 by decide),
      Nat.and_zero]
  have c3 : x &&& (OPEN_FLAG_POSIX_DEPRECATED ||| OPEN_FLAG_POSIX_WRITABLE) = 0 := by
    rw [land_eq_of_land_self _ h,
      (show (OPEN_FLAG_NODE_REFERENCE ||| OPEN_FLAG_DESCRIBE) &&&
        (OPEN_FLAG_POSIX_DEPRECATED ||| OPEN_FLAG_POSIX_WRITABLE) = 0 by decide),
      Nat.and_zero]
  have step1 : (if x &&& OPEN_FLAG_POSIX_DEPRECATED ≠ 0 then
      x ||| (OPEN_FLAG_POSIX_WRITABLE ||| OPEN_FLAG_POSIX_EXECUTABLE) else x) = x :=
    if_neg (by simp [c1])
  have step2 : (if x &&& (OPEN_FLAG_POSIX_DEPRECATED ||| OPEN_FLAG_POSIX_EXECUTABLE) ≠ 0
      then x ||| OPEN_RIGHT_EXECUTABLE else x) = x := if_neg (by simp [c2])
  have step3 : (if x &&& (OPEN_FLAG_POSIX_DEPRECATED ||| OPEN_FLAG_POSIX_WRITABLE) ≠ 0
      then x ||| OPEN_RIGHT_WRITABLE else x) = x := if_neg (by simp [c3])
  simp only [ncvf_expand_posix]
  rw [step1, step2, step3]
  rw [land_eq_of_land_self _ h,
    (show (OPEN_FLAG_NODE_REFERENCE ||| OPEN_FLAG_DESCRIBE) &&&
      u32not (OPEN_FLAG_POSIX_DEPRECATED ||| OPEN_FLAG_POSIX_WRITABLE |||
        OPEN_FLAG_POSIX_EXECUTABLE) =
      OPEN_FLAG_NODE_REFERENCE ||| OPEN_FLAG_DESCRIBE by decide)]
  exact h

/-- C4 counterexample: `OPEN_FLAG_NODE_REFERENCE` together with
`OPEN_FLAG_NOT_DIRECTORY` has NODE_REFERENCE set, yet
`new_connection_validate_flags` fails with `NOT_FILE` instead of
succeeding (matching the library's own
`new_connection_validate_flags_node_reference` test). -/
theorem ncvf_node_reference_counterexample :
    (OPEN_FLAG_NODE_REFERENCE ||| OPEN_FLAG_NOT_DIRECTORY) &&&
      OPEN_FLAG_NODE_REFERENCE ≠ 0 ∧
    new_connection_validate_flags
      (OPEN_FLAG_NODE_REFERENCE ||| OPEN_FLAG_NOT_DIRECTORY) =
      .error .NOT_FILE := by
  exact ⟨by decide, by decide⟩

/-- C4 (amended): for every flags value with `OPEN_FLAG_NODE_REFERENCE`
set and `OPEN_FLAG_NOT_DIRECTORY` clear, `new_connection_validate_flags`
succeeds and returns exactly the input's NODE_REFERENCE and DESCRIBE
bits: every flag outside that allow-list is stripped rather than
causing an error. -/
theorem ncvf_node_reference_amended (flags : Nat)
    (h1 : flags &&& OPEN_FLAG_NODE_REFERENCE ≠ 0)
    (h2 : flags &&& OPEN_FLAG_NOT_DIRECTORY = 0) :
    new_connection_validate_flags flags =
      .ok (flags &&& (OPEN_FLAG_NODE_REFERENCE ||| OPEN_FLAG_DESCRIBE)) := by
  have hm : ncvf_mask_node_reference flags =
      flags &&& OPEN_FLAGS_ALLOWED_WITH_NODE_REFERENCE := by
    unfold ncvf_mask_node_reference
    rw [if_pos h1]
  have ha : ncvf_clear_directory (ncvf_mask_node_reference flags) =
      flags &&& (OPEN_FLAG_NODE_REFERENCE ||| OPEN_FLAG_DESCRIBE) := by
    rw [hm]
    unfold ncvf_clear_directory
    split
    · rw [Nat.and_assoc,
        (show OPEN_FLAGS_ALLOWED_WITH_NODE_REFERENCE &&& u32not OPEN_FLAG_DIRECTORY =
          OPEN_FLAG_NOT_DIRECTORY |||
            (OPEN_FLAG_NODE_REFERENCE ||| OPEN_FLAG_DESCRIBE) by decide)]
      rw [Nat.and_or_distrib_left, h2, Nat.zero_or]
    · next hc =>
      have hdir : flags &&& OPEN_FLAG_DIRECTORY = 0 := by
        have hz := not_ne_iff.mp hc
        rwa [Nat.and_assoc,
          (show OPEN_FLAGS_ALLOWED_WITH_NODE_REFERENCE &&& OPEN_FLAG_DIRECTORY =
            OPEN_FLAG_DIRECTORY by decide)] at hz
      rw [(show OPEN_FLAGS_ALLOWED_WITH_NODE_REFERENCE =
        (OPEN_FLAG_NOT_DIRECTORY |||
          (OPEN_FLAG_NODE_REFERENCE ||| OPEN_FLAG_DESCRIBE)) |||
          OPEN_FLAG_DIRECTORY by decide)]
      rw [Nat.and_or_distrib_left, hdir, Nat.or_zero]
      rw [Nat.and_or_distrib_left, h2, Nat.zero_or]
  simp only [new_connection_validate_flags]
  rw [ha]
  have hsub : (flags &&& (OPEN_FLAG_NODE_REFERENCE ||| OPEN_FLAG_DESCRIBE)) &&&
      (OPEN_FLAG_NODE_REFERENCE ||| OPEN_FLAG_DESCRIBE) =
      flags &&& (OPEN_FLAG_NODE_REFERENCE ||| OPEN_FLAG_DESCRIBE) := by
    rw [Nat.and_assoc, Nat.and_self]
  have hnd : (flags &&& (OPEN_FLAG_NODE_REFERENCE ||| OPEN_FLAG_DESCRIBE)) &&&
      OPEN_FLAG_NOT_DIRECTORY = 0 := by
    rw [land_eq_of_land_self _ hsub,
      (show (OPEN_FLAG_NODE_REFERENCE ||| OPEN_FLAG_DESCRIBE) &&&
        OPEN_FLAG_NOT_DIRECTORY = 0 by decide), Nat.and_zero]
  have hpro : (flags &&& (OPEN_FLAG_NODE_REFERENCE ||| OPEN_FLAG_DESCRIBE)) &&&
      ncvf_prohibited_flags = 0 := by
    rw [land_eq_of_land_self _ hsub,
      (show (OPEN_FLAG_NODE_REFERENCE ||| OPEN_FLAG_DESCRIBE) &&&
        ncvf_prohibited_flags = 0 by decide), Nat.and_zero]
  have hall : (flags &&& (OPEN_FLAG_NODE_REFERENCE ||| OPEN_FLAG_DESCRIBE)) &&&
      u32not ncvf_allowed_flags = 0 := by
    rw [land_eq_of_land_self _ hsub,
      (show (OPEN_FLAG_NODE_REFERENCE ||| OPEN_FLAG_DESCRIBE) &&&
        u32not ncvf_allowed_flags = 0 by decide), Nat.and_zero]
  rw [if_neg (by simp [hnd])]
  rw [ncvf_expand_posix_fixed_of_nr_describe hsub]
  rw [if_neg (by simp [hpro]), if_neg (by simp [hall])]

/-- C4 witness: NODE_REFERENCE with DESCRIBE and READABLE validates to
exactly NODE_REFERENCE and DESCRIBE. -/
theorem ncvf_node_reference_amended_witness :
    new_connection_validate_flags 0xC00001 =
      .ok (0xC00001 &&& (OPEN_FLAG_NODE_REFERENCE ||| OPEN_FLAG_DESCRIBE)) :=
  ncvf_node_reference_amended 0xC00001 (by decide) (by decide)

/-- The directory-clearing step leaves no `OPEN_FLAG_DIRECTORY` bit. -/
theorem ncvf_clear_directory_dir (x : Nat) :
    ncvf_clear_directory x &&& OPEN_FLAG_DIRECTORY = 0 := by
  unfold ncvf_clear_directory
  split
  · rw [Nat.and_assoc,
      (show u32not OPEN_FLAG_DIRECTORY &&& OPEN_FLAG_DIRECTORY = 0 by decide),
      Nat.and_zero]
  · next hc => exact not_ne_iff.mp hc

/-- The directory-clearing step does not change bits outside
`OPEN_FLAG_DIRECTORY`. -/
theorem ncvf_clear_directory_mask (x n : Nat)
    (hn : u32not OPEN_FLAG_DIRECTORY &&& n = n) :
    ncvf_clear_directory x &&& n = x &&& n := by
  unfold ncvf_clear_directory
  split
  · rw [Nat.and_assoc, hn]
  · rfl

/-- The directory-clearing step preserves confinement to any mask. -/
theorem ncvf_clear_directory_sub (x m : Nat) (h : x &&& m = x) :
    ncvf_clear_directory x &&& m = ncvf_clear_directory x := by
  unfold ncvf_clear_directory
  split
  · exact land_pres_of_land _ h
  · exact h

/-- The node-reference masking step preserves the
`OPEN_FLAG_NODE_REFERENCE` bit itself. -/
theorem ncvf_mask_nr_bit (x : Nat) :
    ncvf_mask_node_reference x &&& OPEN_FLAG_NODE_REFERENCE =
      x &&& OPEN_FLAG_NODE_REFERENCE := by
  unfold ncvf_mask_node_reference
  split
  · exact land_mask_first (by decide)
  · rfl

/-- After the node-reference masking step of a flags word with
NODE_REFERENCE set, the result is confined to the node-reference
allow-list. -/
theorem ncvf_mask_nr_subset (x : Nat) (h : x &&& OPEN_FLAG_NODE_REFERENCE ≠ 0) :
    ncvf_mask_node_reference x &&& OPEN_FLAGS_ALLOWED_WITH_NODE_REFERENCE =
      ncvf_mask_node_reference x := by
  unfold ncvf_mask_node_reference
  rw [if_pos h, Nat.and_assoc, Nat.and_self]

/-- The POSIX-expansion step does not change bits outside the POSIX
flags and the WRITABLE/EXECUTABLE rights. -/
theorem ncvf_expand_posix_mask (x n : Nat)
    (hW : OPEN_RIGHT_WRITABLE &&& n = 0)
    (hX : OPEN_RIGHT_EXECUTABLE &&& n = 0)
    (hP : (OPEN_FLAG_POSIX_WRITABLE ||| OPEN_FLAG_POSIX_EXECUTABLE) &&& n = 0)
    (hK : u32not (OPEN_FLAG_POSIX_DEPRECATED ||| OPEN_FLAG_POSIX_WRITABLE |||
      OPEN_FLAG_POSIX_EXECUTABLE) &&& n = n) :
    ncvf_expand_posix x &&& n = x &&& n := by
  have s3 : ∀ y : Nat,
      (if y &&& (OPEN_FLAG_POSIX_DEPRECATED ||| OPEN_FLAG_POSIX_WRITABLE) ≠ 0
        then y ||| OPEN_RIGHT_WRITABLE else y) &&& n = y &&& n := by
    intro y
    split
    · exact lor_land_disjoint _ _ hW
    · rfl
  have s2 : ∀ y : Nat,
      (if y &&& (OPEN_FLAG_POSIX_DEPRECATED ||| OPEN_FLAG_POSIX_EXECUTABLE) ≠ 0
        then y ||| OPEN_RIGHT_EXECUTABLE else y) &&& n = y &&& n := by
    intro y
    split
    · exact lor_land_disjoint _ _ hX
    · rfl
  have s1 : ∀ y : Nat,
      (if y &&& OPEN_FLAG_POSIX_DEPRECATED ≠ 0
        then y ||| (OPEN_FLAG_POSIX_WRITABLE ||| OPEN_FLAG_POSIX_EXECUTABLE)
        else y) &&& n = y &&& n := by
    intro y
    split
    · exact lor_land_disjoint _ _ hP
    · rfl
  simp only [ncvf_expand_posix]
  rw [Nat.and_assoc, hK, s3, s2, s1]

/-- The POSIX-expansion step's output is a fixed point of clearing the
POSIX flags. -/
theorem ncvf_expand_posix_u32not_posix (x : Nat) :
    ncvf_expand_posix x &&& u32not (OPEN_FLAG_POSIX_DEPRECATED |||
      OPEN_FLAG_POSIX_WRITABLE ||| OPEN_FLAG_POSIX_EXECUTABLE) =
      ncvf_expand_posix x := by
  simp only [ncvf_expand_posix]
  rw [Nat.and_assoc, Nat.and_self]

/-- Invariants of every successful `new_connection_validate_flags`
result: it is confined to the allowed flags, has no DIRECTORY bit, is
confined to NODE_REFERENCE and DESCRIBE whenever NODE_REFERENCE is set,
and has no POSIX bits. -/
theorem ncvf_ok_inv {f g : Nat} (h : new_connection_validate_flags f = .ok g) :
    g &&& u32not ncvf_allowed_flags = 0 ∧
    g &&& OPEN_FLAG_DIRECTORY = 0 ∧
    (g &&& OPEN_FLAG_NODE_REFERENCE ≠ 0 →
      g &&& (OPEN_FLAG_NODE_REFERENCE ||| OPEN_FLAG_DESCRIBE) = g) ∧
    g &&& u32not (OPEN_FLAG_POSIX_DEPRECATED ||| OPEN_FLAG_POSIX_WRITABLE |||
      OPEN_FLAG_POSIX_EXECUTABLE) = g := by
  simp only [new_connection_validate_flags] at h
  split at h
  · exact Except.noConfusion h
  next hndneg =>
  split at h
  · exact Except.noConfusion h
  next hproneg =>
  split at h
  · exact Except.noConfusion h
  next hallneg =>
  simp only [Except.ok.injEq] at h
  subst h
  have hnd0 : ncvf_clear_directory (ncvf_mask_node_reference f) &&&
      OPEN_FLAG_NOT_DIRECTORY = 0 := not_ne_iff.mp hndneg
  refine ⟨not_ne_iff.mp hallneg, ?_, ?_, ncvf_expand_posix_u32not_posix _⟩
  · rw [ncvf_expand_posix_mask _ _ (by decide) (by decide) (by decide) (by decide)]
    exact ncvf_clear_directory_dir _
  · intro hnr
    rw [ncvf_expand_posix_mask _ _ (by decide) (by decide) (by decide)
      (by decide)] at hnr
    have hfNR : f &&& OPEN_FLAG_NODE_REFERENCE ≠ 0 := by
      rwa [ncvf_clear_directory_mask _ _ (by decide), ncvf_mask_nr_bit] at hnr
    have hsubANR := ncvf_mask_nr_subset f hfNR
    have haANR := ncvf_clear_directory_sub (ncvf_mask_node_reference f)
      OPEN_FLAGS_ALLOWED_WITH_NODE_REFERENCE hsubANR
    have hadir := ncvf_clear_directory_dir (ncvf_mask_node_reference f)
    have h4 : ncvf_clear_directory (ncvf_mask_node_reference f) &&&
        (OPEN_FLAG_NOT_DIRECTORY |||
          (OPEN_FLAG_NODE_REFERENCE ||| OPEN_FLAG_DESCRIBE)) =
        ncvf_clear_directory (ncvf_mask_node_reference f) := by
      conv_rhs => rw [← haANR,
        (show OPEN_FLAGS_ALLOWED_WITH_NODE_REFERENCE =
          (OPEN_FLAG_NOT_DIRECTORY |||
            (OPEN_FLAG_NODE_REFERENCE ||| OPEN_FLAG_DESCRIBE)) |||
          OPEN_FLAG_DIRECTORY by decide),
        Nat.and_or_distrib_left]
      rw [hadir, Nat.or_zero]
    have h5 : ncvf_clear_directory (ncvf_mask_node_reference f) &&&
        (OPEN_FLAG_NODE_REFERENCE ||| OPEN_FLAG_DESCRIBE) =
        ncvf_clear_directory (ncvf_mask_node_reference f) := by
      conv_rhs => rw [← h4, Nat.and_or_distrib_left]
      rw [hnd0, Nat.zero_or]
    rw [ncvf_expand_posix_fixed_of_nr_describe h5]
    exact h5

/-- A flags word satisfying the success invariants of
`new_connection_validate_flags` is returned unchanged by it. -/
theorem ncvf_canonical_fixed {g : Nat}
    (P1 : g &&& u32not ncvf_allowed_flags = 0)
    (P2 : g &&& OPEN_FLAG_DIRECTORY = 0)
    (P3 : g &&& OPEN_FLAG_NODE_REFERENCE ≠ 0 →
      g &&& (OPEN_FLAG_NODE_REFERENCE ||| OPEN_FLAG_DESCRIBE) = g)
    (P4 : g &&& u32not (OPEN_FLAG_POSIX_DEPRECATED ||| OPEN_FLAG_POSIX_WRITABLE |||
      OPEN_FLAG_POSIX_EXECUTABLE) = g) :
    new_connection_validate_flags g = .ok g := by
  have hmr : ncvf_mask_node_reference g = g := by
    unfold ncvf_mask_node_reference
    split
    · next hnr =>
      have h5 := P3 hnr
      conv_lhs => rw [← h5]
      rw [Nat.and_assoc,
        (show (OPEN_FLAG_NODE_REFERENCE ||| OPEN_FLAG_DESCRIBE) &&&
          OPEN_FLAGS_ALLOWED_WITH_NODE_REFERENCE =
          OPEN_FLAG_NODE_REFERENCE ||| OPEN_FLAG_DESCRIBE by decide)]
      exact h5
    · rfl
  have hcd : ncvf_clear_directory g = g := by
    unfold ncvf_clear_directory
    split
    · next hc => exact absurd P2 hc
    · rfl
  have hnd : g &&& OPEN_FLAG_NOT_DIRECTORY = 0 :=
    land_zero_of_land_zero P1 (by decide)
  have c1 : g &&& OPEN_FLAG_POSIX_DEPRECATED = 0 :=
    land_zero_of_land_zero P1 (by decide)
  have c2 : g &&& (OPEN_FLAG_POSIX_DEPRECATED ||| OPEN_FLAG_POSIX_EXECUTABLE) = 0 :=
    land_zero_of_land_zero P1 (by decide)
  have c3 : g &&& (OPEN_FLAG_POSIX_DEPRECATED ||| OPEN_FLAG_POSIX_WRITABLE) = 0 :=
    land_zero_of_land_zero P1 (by decide)
  have hexp : ncvf_expand_posix g = g := by
    have step1 : (if g &&& OPEN_FLAG_POSIX_DEPRECATED ≠ 0 then
        g ||| (OPEN_FLAG_POSIX_WRITABLE ||| OPEN_FLAG_POSIX_EXECUTABLE) else g) = g :=
      if_neg (by simp [c1])
    have step2 : (if g &&& (OPEN_FLAG_POSIX_DEPRECATED |||
        OPEN_FLAG_POSIX_EXECUTABLE) ≠ 0
        then g ||| OPEN_RIGHT_EXECUTABLE else g) = g := if_neg (by simp [c2])
    have step3 : (if g &&& (OPEN_FLAG_POSIX_DEPRECATED |||
        OPEN_FLAG_POSIX_WRITABLE) ≠ 0
        then g ||| OPEN_RIGHT_WRITABLE else g) = g := if_neg (by simp [c3])
    simp only [ncvf_expand_posix]
    rw [step1, step2, step3, P4]
  have hpro : g &&& ncvf_prohibited_flags = 0 :=
    land_zero_of_land_zero P1 (by decide)
  simp only [new_connection_validate_flags]
  rw [hmr, hcd, if_neg (by simp [hnd]), hexp, if_neg (by simp [hpro]),
    if_neg (by simp [P1])]

/-- C6: `new_connection_validate_flags` is idempotent on its own
output: if validating `flags` succeeds with `g`, then validating `g`
succeeds and returns `g` unchanged. -/
theorem new_connection_validate_flags_idempotent (flags g : Nat)
    (h : new_connection_validate_flags flags = .ok g) :
    new_connection_validate_flags g = .ok g := by
  obtain ⟨P1, P2, P3, P4⟩ := ncvf_ok_inv h
  exact ncvf_canonical_fixed P1 P2 P3 P4

/-- C6 witness: validating the POSIX-writable flag with READABLE yields
READABLE and WRITABLE, and re-validating that output returns it
unchanged. -/
theorem new_connection_validate_flags_idempotent_witness :
    new_connection_validate_flags 3 = .ok 3 :=
  new_connection_validate_flags_idempotent 0x8000001 3 (by decide)
